import Mathlib

/-!
Verification development for the Speechly web API (`web_api.py`): a shallow
embedding of the production-mode session store, the submit-recording
orchestrator, the feedback prompt builder and the streamed-feedback
generator, together with theorems settling the specification claims.

Modelling conventions:
* Python dicts (`user_sessions`, `session_counters`) are association lists
  with unique keys; `List.lookup` is dict access, `dictSet` is item
  assignment, `dictDel` is `del`.
* A missing `Session-ID` header and an empty one are both falsy in the
  Python code and are both modelled by the empty string.
* Python byte strings are modelled by their length (`PyBytes`): no code
  path under verification inspects individual audio bytes, only `len`.
* The float `duration = len(audio_bytes) / (44100 * 2)` is modelled by the
  exact fraction `Frac` with numerator `len` and denominator 88200.  Every
  use of the float is a comparison against the integers 5, 20, 30 or an
  `int(...)` truncation; for any realistic byte count the float's relative
  rounding error (about 2^-52) is many orders of magnitude smaller than the
  distance from `len/88200` to an integer when the two differ, so the exact
  comparisons agree with the float ones.
* `re` character classes, `str.strip`, `str.upper`, `str.title` are
  modelled on ASCII; the Python originals also accept further Unicode
  word characters, which no claim depends on.
* Wall-clock inputs (`datetime.now().strftime(...)`, `time.time()`) and the
  external collaborators (base64 decoding, the Whisper transcription call,
  the chat-completion stream) are parameters of the embedded handlers.
-/

/-- Dict item assignment `d[k] = v`: replaces the first binding of `k`,
keeping its position, or appends a new binding (Python dicts keep
insertion order). -/
def dictSet {α : Type} : List (String × α) → String → α → List (String × α)
  | [], k, v => [(k, v)]
  | (k', v') :: t, k, v => if k' = k then (k, v) :: t else (k', v') :: dictSet t k v

/-- Dict deletion `del d[k]`. -/
def dictDel {α : Type} (d : List (String × α)) (k : String) : List (String × α) :=
  d.filter (fun p => p.1 != k)

/-- ASCII approximation of the regex class `\w` (`re.sub(r'[^\w\s-]', ...)`). -/
def isPyWordChar (c : Char) : Bool := c.isAlphanum || c = '_'

/-- ASCII whitespace recognised by Python's `\s` and `str.strip`. -/
def isPySpaceChar (c : Char) : Bool :=
  c = ' ' || c = '\t' || c = '\n' || c = '\r' || c = '\x0b' || c = '\x0c'

/-- `re.sub(r'[^\w\s-]', '', s)`: drop every character that is not a word
character, whitespace or a hyphen. -/
def stripNonTopicChars (s : String) : String :=
  String.mk (s.data.filter (fun c => isPyWordChar c || isPySpaceChar c || c = '-'))

/-- Python slicing `s[:n]`. -/
def pyTake (n : Nat) (s : String) : String := String.mk (s.data.take n)

/-- Python `str.strip()` (no argument): remove leading and trailing whitespace. -/
def pyStrip (s : String) : String :=
  String.mk (((s.data.dropWhile isPySpaceChar).reverse.dropWhile isPySpaceChar).reverse)

/-- `s.replace(src, dst)` for one-character patterns. -/
def pyReplaceChar (src dst : Char) (s : String) : String :=
  String.mk (s.data.map (fun c => if c = src then dst else c))

/-- ASCII uppercase of one character. -/
def upperChar (c : Char) : Char :=
  if 'a' ≤ c ∧ c ≤ 'z' then Char.ofNat (c.toNat - 32) else c

/-- ASCII lowercase of one character. -/
def lowerChar (c : Char) : Char :=
  if 'A' ≤ c ∧ c ≤ 'Z' then Char.ofNat (c.toNat + 32) else c

/-- Python `str.upper()` (ASCII). -/
def pyUpper (s : String) : String := String.mk (s.data.map upperChar)

/-- Helper for `pyTitle`: the Bool records whether the previous character
was a letter. -/
def titleGo : Bool → List Char → List Char
  | _, [] => []
  | prevAlpha, c :: t =>
    if c.isAlpha then (if prevAlpha then lowerChar c else upperChar c) :: titleGo true t
    else c :: titleGo false t

/-- Python `str.title()` (ASCII): uppercase a letter that follows a
non-letter, lowercase the rest. -/
def pyTitle (s : String) : String := String.mk (titleGo false s.data)

/-- A Python byte string, modelled by its length: the code under
verification only ever takes `len` of the audio bytes or passes them
through whole. -/
structure PyBytes where
  len : Nat
deriving DecidableEq

/-- The exact value of a Python float that arises as a quotient of two
naturals (`duration = len(audio_bytes) / (44100 * 2)`). -/
structure Frac where
  num : Nat
  den : Nat
deriving DecidableEq

/-- `a ≤ n` for a nonnegative fraction and an integer threshold. -/
def Frac.leInt (a : Frac) (n : Nat) : Bool := a.num ≤ n * a.den

/-- `a < n`. -/
def Frac.ltInt (a : Frac) (n : Nat) : Bool := a.num < n * a.den

/-- `n < a`. -/
def Frac.intLt (n : Nat) (a : Frac) : Bool := n * a.den < a.num

/-- Python `int(x)` for the nonnegative fractions used here (truncation). -/
def Frac.pyInt (a : Frac) : Nat := a.num / a.den

/-- `x * 0.t` for one decimal digit `t` (used for `int(duration*0.9)`). -/
def Frac.mulTenths (a : Frac) (t : Nat) : Frac := ⟨a.num * t, a.den * 10⟩

/-- `duration = len(audio_bytes) / (44100 * 2)` (web_api.py:491 and 566). -/
def estimated_duration (len : Nat) : Frac := ⟨len, 44100 * 2⟩

/-- `round(duration, 1)` scaled by ten.  Modelled as round-half-up on the
exact value; Python rounds the float, whose ties resolve to even — the two
differ only at exact `.05` ties, which no claim depends on. -/
def round_tenths (d : Frac) : Nat := (10 * d.num + d.den / 2) / d.den

/-- One entry of a session's recording list (web_api.py:84-94). -/
structure Recording where
  filename : String
  audio_data : PyBytes
  topic : String
  speech_type : String
  transcription : String
  feedback : String
  size : Nat
  created : Nat
  modified : Nat
deriving DecidableEq

/-- The two module-level dicts `user_sessions` and `session_counters`
(web_api.py:53-54). -/
structure Store where
  user_sessions : List (String × List Recording)
  session_counters : List (String × Nat)
deriving DecidableEq

def emptyStore : Store := ⟨[], []⟩

/-- The recording list of a session (`user_sessions.get(sid, [])`). -/
def sessionRecs (s : Store) (session_id : String) : List Recording :=
  (List.lookup session_id s.user_sessions).getD []

/-- The session counter (`session_counters.get(sid, 0)`). -/
def counterOf (s : Store) (session_id : String) : Nat :=
  (List.lookup session_id s.session_counters).getD 0

/-- `ensure_session_exists` (web_api.py:59-63). -/
def ensure_session_exists (session_id : String) (s : Store) : Store :=
  if session_id ≠ "" ∧ List.lookup session_id s.user_sessions = none then
    { user_sessions := dictSet s.user_sessions session_id [],
      session_counters := dictSet s.session_counters session_id 0 }
  else s

/-- `generate_session_filename` (web_api.py:65-76).  `ts` is the value of
`datetime.now().strftime("%Y%m%d_%H%M%S")`. -/
def generate_session_filename (session_id topic ts : String) (s : Store) :
    Option String × Store :=
  if session_id = "" then (none, s)
  else
    let c := (List.lookup session_id s.session_counters).getD 0 + 1
    let s' := { s with session_counters := dictSet s.session_counters session_id c }
    let clean_topic := pyReplaceChar ' ' '_' (pyTake 20 (stripNonTopicChars topic))
    (some (clean_topic ++ "_" ++ ts ++ "_" ++ toString c ++ ".wav"), s')

/-- `save_session_recording` (web_api.py:78-97).  `now` is `time.time()`.
After `ensure_session_exists` with a non-empty id the key is present, so
`user_sessions[session_id].append(...)` is the `getD []`-append below. -/
def save_session_recording (session_id filename : String) (audio_data : PyBytes)
    (topic speech_type transcription feedback : String) (now : Nat) (s : Store) :
    Bool × Store :=
  if session_id = "" then (false, s)
  else
    let s1 := ensure_session_exists session_id s
    let recording_info : Recording :=
      { filename := filename, audio_data := audio_data, topic := topic,
        speech_type := speech_type, transcription := transcription,
        feedback := feedback, size := audio_data.len, created := now, modified := now }
    let appended := (List.lookup session_id s1.user_sessions).getD [] ++ [recording_info]
    (true, { s1 with user_sessions := dictSet s1.user_sessions session_id appended })

/-- The projection returned by `get_session_recordings` (web_api.py:103-108). -/
structure RecordingInfo where
  filename : String
  size : Nat
  created : Nat
  modified : Nat
deriving DecidableEq

/-- `get_session_recordings` (web_api.py:99-108). -/
def get_session_recordings (session_id : String) (s : Store) : List RecordingInfo :=
  if session_id = "" then []
  else
    match List.lookup session_id s.user_sessions with
    | none => []
    | some recs =>
      recs.map (fun r => ⟨r.filename, r.size, r.created, r.modified⟩)

/-- `get_session_recording_data` (web_api.py:110-117): first recording with
the given filename. -/
def get_session_recording_data (session_id filename : String) (s : Store) :
    Option Recording :=
  if session_id = "" then none
  else
    match List.lookup session_id s.user_sessions with
    | none => none
    | some recs => recs.find? (fun r => r.filename == filename)

/-- `delete_session_recording` (web_api.py:119-125): keeps the recordings
whose filename differs and reports whether the list shrank. -/
def delete_session_recording (session_id filename : String) (s : Store) :
    Bool × Store :=
  if session_id = "" then (false, s)
  else
    match List.lookup session_id s.user_sessions with
    | none => (false, s)
    | some recs =>
      let remaining := recs.filter (fun r => r.filename != filename)
      (remaining.length < recs.length,
       { s with user_sessions := dictSet s.user_sessions session_id remaining })

/-- `clear_all_session_recordings` (web_api.py:127-136): empties the list
and resets the counter to zero. -/
def clear_all_session_recordings (session_id : String) (s : Store) :
    Bool × Store :=
  if session_id = "" then (false, s)
  else
    match List.lookup session_id s.user_sessions with
    | none => (false, s)
    | some _ =>
      (true, { user_sessions := dictSet s.user_sessions session_id [],
               session_counters := dictSet s.session_counters session_id 0 })

/-- `cleanup_session` (web_api.py:138-143): unconditional `del` of both
entries when present; no error when absent. -/
def cleanup_session (session_id : String) (s : Store) : Store :=
  { user_sessions := dictDel s.user_sessions session_id,
    session_counters := dictDel s.session_counters session_id }

/-- The JSON body of `POST /api/record` (web_api.py:434-439).  `topic` and
`speech_type` model `data.get(..., '')`, `language` models
`data.get('language', 'en')` (an absent field is the default `"en"`),
`audio_data` is `None` or the base64 string. -/
structure RecordRequest where
  topic : String
  speech_type : String
  language : String
  audio_data : Option String
  is_repeat : Bool
  previous_filename : Option String
deriving DecidableEq

/-- The `result` object of a successful `POST /api/record`
(web_api.py:522-533).  `duration_tenths` is `round(duration, 1)` scaled
by ten. -/
structure RecordResult where
  filename : String
  transcription : String
  topic : String
  speech_type : String
  duration_tenths : Nat
  score_type : String
  stream_url : String
deriving DecidableEq

/-- A response of the record endpoint: the success payload or a JSON error
with its HTTP status. -/
inductive RecordResponse where
  | ok (result : RecordResult)
  | err (status : Nat) (error : String)
deriving DecidableEq

/-- `valid_languages` (web_api.py:452). -/
def valid_languages : List String :=
  ["en", "es", "fr", "de", "it", "pt", "ru", "ja", "ko", "zh", "ar", "hi", "tr", "nl", "bn"]

/-- `'short' if duration < SHORT_RECORDING_THRESHOLD else 'full'` with the
record endpoint's threshold `SHORT_RECORDING_THRESHOLD = 30`
(web_api.py:494,530). -/
def score_type_for (duration : Frac) : String :=
  if duration.ltInt 30 then "short" else "full"

/-- `process_recording`, the production-mode handler of `POST /api/record`
(web_api.py:415-544).  `b64decode` and `transcribe` are the external
collaborators (`base64.b64decode` and the Whisper call); their `.error`
carries the exception text.  `ts` and `now` are the wall-clock inputs.
The temp-file round trip (web_api.py:468-470) is invisible to the store
and is not modelled. -/
def process_recording (b64decode : String → Except String PyBytes)
    (transcribe : PyBytes → String → Except String String)
    (session_id : String) (data : Option RecordRequest)
    (ts : String) (now : Nat) (s : Store) : RecordResponse × Store :=
  if session_id = "" then (.err 400 "No session ID provided", s)
  else
    match data with
    | none => (.err 400 "No data provided", s)
    | some d =>
      let topic0 := pyStrip d.topic
      let speech_type0 := pyStrip d.speech_type
      if topic0 = "" ∨ speech_type0 = "" ∨ d.audio_data = none ∨ d.audio_data = some "" then
        (.err 400 "Missing required fields: topic, speech_type, or audio_data", s)
      else
        let topic := pyTake 100 (stripNonTopicChars topic0)
        let speech_type := pyTake 50 (stripNonTopicChars speech_type0)
        let language := if valid_languages.contains d.language then d.language else "en"
        match b64decode (d.audio_data.getD "") with
        | .error e => (.err 400 ("Invalid audio data: " ++ e), s)
        | .ok audio_bytes =>
          match transcribe audio_bytes (if language = "zh" then "zh-CN" else language) with
          | .error e => (.err 500 e, s)
          | .ok transcription_text =>
            if transcription_text = "" ∨ (pyStrip transcription_text).data.length < 3 then
              (.err 400 "Could not transcribe audio", s)
            else
              let duration := estimated_duration audio_bytes.len
              if duration.leInt 5 then
                (.err 400 "Speech was too short to generate feedback for (<5 seconds). Please try again.", s)
              else
                match generate_session_filename session_id topic ts s with
                | (none, s') => (.err 500 "Failed to generate filename", s')
                | (some filename, s') =>
                  let s2 := (save_session_recording session_id filename audio_bytes
                    topic speech_type transcription_text "" now s').2
                  (.ok { filename := filename, transcription := transcription_text,
                         topic := topic, speech_type := speech_type,
                         duration_tenths := round_tenths duration,
                         score_type := score_type_for duration,
                         stream_url := "/api/stream-feedback/" ++ session_id ++ "/" ++ filename },
                   s2)

/-- `language_names` (web_api.py:584-600). -/
def language_names : List (String × String) :=
  [("en", "English"), ("es", "Spanish"), ("fr", "French"), ("de", "German"),
   ("it", "Italian"), ("pt", "Portuguese"), ("ru", "Russian"), ("ja", "Japanese"),
   ("ko", "Korean"), ("zh", "Chinese"), ("ar", "Arabic"), ("hi", "Hindi"),
   ("tr", "Turkish"), ("nl", "Dutch"), ("bn", "Bengali")]

/-- `language_names.get(language, 'English')` (web_api.py:602). -/
def language_name_for (language : String) : String :=
  (List.lookup language language_names).getD "English"

/-- `language_instruction` (web_api.py:603). -/
def language_instruction_for (language : String) : String :=
  "Try to tailor the feedback based off the context of the user presentation. Make sure to provide ALL feedback in "
    ++ language_name_for language ++ "."

/-- `grading_instruction` (web_api.py:569-574): assigned in the source but
never used in either prompt template. -/
def grading_instruction : String :=
  "First, give a grading on a strict scale of 1-100 on the speech. "
    ++ "Don't always have scores in increments of 5, use more varied/granular scores. "
    ++ "You can choose to give separate scores for certain things, like 18/20 for structure, 17.5/20 for conclusion, etc.\n "
    ++ "Please put adequate spacing. There MUST be a clear separating line between each major point for clarity.\n"

/-- `feedback_instruction` (web_api.py:576-579): assigned in the source but
never used in either prompt template. -/
def feedback_instruction : String :=
  "Comment on things such as their structure of the speech, clarity, volume, confidence, intonation, pauses, etc. "
    ++ "Note good things they did and things they can improve on, and don't be overly nice. "

/-- The short-form prompt template (web_api.py:609-632), the branch taken
when `MIN_RECORDING_DURATION < duration < SHORT_RECORDING_THRESHOLD` with
the builder's local constants 5 and 20. -/
def shortFeedbackPrompt (speech_type topic transcription_text repeat_context
    language_instruction : String) (duration : Frac) : String :=
  "You're reviewing a " ++ speech_type ++ " speech about '" ++ topic ++ "'. Here's what they said:\n\n"
    ++ transcription_text ++ "\n\n"
    ++ repeat_context ++ "\n"
    ++ "It's a quick one - about " ++ toString duration.pyInt ++ " seconds. Give them feedback like you're a experienced coach who's heard thousands of speeches.\n\n"
    ++ "Format your response like this:\n\n"
    ++ "**OVERALL: [X]/100**\n\n"
    ++ "**📊 BREAKDOWN**\n"
    ++ "Opening & Hook: [X]/20 - [quick comment]\n"
    ++ "Content & Clarity: [X]/20 - [quick comment]\n"
    ++ "Vocal Delivery: [X]/20 - [quick comment]\n"
    ++ "Structure & Flow: [X]/20 - [quick comment]\n"
    ++ "Closing Impact: [X]/20 - [quick comment]\n\n"
    ++ "**💪 What worked:**\n"
    ++ "[2-3 things, quote what they actually said when relevant]\n\n"
    ++ "**🎯 Room to grow:**\n"
    ++ "[2-3 things that need work, be specific about when/where it happened]\n\n"
    ++ "**🔧 Here's how to fix it:**\n"
    ++ "[Give them actual techniques they can try. Not \"be more confident\" but \"Try this: record yourself saying your opening line 5 times, each time a bit slower and louder than the last. Pick the one that feels most natural.\"]\n\n"
    ++ "**🚀 Try this next time:**\n"
    ++ "[One specific challenge for their next recording]\n\n"
    ++ "Keep it real - use precise scores (like 16.5/20, not just round numbers). Write like a human coach, not a textbook. Quote their actual words when you can. Make every suggestion something they can actually do, not vague advice.\n"
    ++ language_instruction

/-- The full-form prompt template (web_api.py:634-678), the `else` branch
of the builder. -/
def fullFeedbackPrompt (topic speech_type transcription_text repeat_context
    language_instruction : String) (duration : Frac) : String :=
  "You're a speech coach reviewing a " ++ speech_type ++ " about '" ++ topic ++ "'. Duration: about " ++ toString duration.pyInt ++ " seconds.\n\n"
    ++ "Here's what they said:\n" ++ transcription_text ++ "\n\n"
    ++ repeat_context ++ "\n"
    ++ "Give them detailed feedback like you're sitting across from them after they just finished. Be real with them - they want to improve, not just hear they did great.\n\n"
    ++ "**" ++ pyUpper topic ++ "** - " ++ pyTitle speech_type ++ "\n"
    ++ "*First impression:* [What's your gut reaction? 1-2 sentences]\n\n"
    ++ "**OVERALL: [X]/100**\n\n"
    ++ "**📊 THE BREAKDOWN**\n\n"
    ++ "**Opening & Hook: [X]/20**\n"
    ++ "[How'd they start? Did it hook you? Quote their first few lines and talk about whether it worked.]\n\n"
    ++ "**Content & Clarity: [X]/20**\n"
    ++ "[Did their points land? Were they clear? Give examples of where they nailed it or got muddy.]\n\n"
    ++ "**Vocal Delivery: [X]/20**\n"
    ++ "[Talk about their voice - pace, energy, tone. Call out specific moments. If they said \"um\" every other word or rushed through the middle, say when.]\n\n"
    ++ "**Structure & Flow: [X]/20**\n"
    ++ "[Did it flow naturally or feel choppy? How were the transitions? Walk through their structure.]\n\n"
    ++ "**Closing: [X]/20**\n"
    ++ "[How'd they wrap it up? Did it stick with you? Quote their ending.]\n\n"
    ++ "**💪 What killed:**\n"
    ++ "[3-4 things they genuinely did well. Quote them. Be specific - not \"good energy\" but \"when you said '[exact quote]', that landed really well because...\"\n\n"
    ++ "**🎯 What needs work:**\n\n"
    ++ "1. [First thing] - [Why it matters and where you noticed it]\n"
    ++ "2. [Second thing] - [Be specific with examples]\n"
    ++ "3. [Third thing] - [Don't hold back if it's important]\n\n"
    ++ "**🔧 Here's how to actually fix it:**\n\n"
    ++ "For each issue above, give them something they can practice TODAY:\n\n"
    ++ "**[Name the technique]**\n"
    ++ "[Real talk on how to do it. Example: \"Your pacing was all over the place. Here's what to do: Set a metronome to 140 BPM. Read your script out loud matching that rhythm for 5 minutes. It'll feel weird at first, but you'll find your sweet spot between too fast and putting people to sleep.\"]\n\n"
    ++ "**[Another technique]**\n"
    ++ "[Another concrete fix they can practice]\n\n"
    ++ "**[Third technique]**\n"
    ++ "[One more actionable thing]\n\n"
    ++ "**📈 The numbers:**\n"
    ++ "• Pace: roughly [X] words/min - [too fast/just right/kinda slow]\n"
    ++ "• Filler words: [how many and which ones - be honest]\n"
    ++ "• Sentence structure: [varied or monotonous?]\n"
    ++ "• Energy: [did it stay flat, build up, or drop off?]\n\n"
    ++ "**🚀 Next time you practice:**\n"
    ++ "[One specific thing to try. Make it measurable. Like: \"Record this again but start with a personal story, pause 3 full seconds before your main point, and cut 'um/uh' in half. Shoot for under " ++ toString (duration.mulTenths 9).pyInt ++ " seconds.\"]\n\n"
    ++ "**💡 Level-up move:**\n"
    ++ "[One advanced tip specific to this type of speech that could really elevate it]\n\n"
    ++ "Remember: Use real scores (like 17/20, 16.5/20), quote their actual words, and make every tip something they can literally do in their next practice session. Write like you're texting them feedback, not writing a formal evaluation.\n"
    ++ language_instruction

/-- `build_feedback_prompt` (web_api.py:568-680), the builder nested in the
stream-feedback generator.  `repeat_context` is initialised to the empty
string and never reassigned; `is_repeat` and `previous_transcription` do
not occur in the body.  The builder's local constants are
`MIN_RECORDING_DURATION = 5` and `SHORT_RECORDING_THRESHOLD = 20`
(web_api.py:605-606). -/
def build_feedback_prompt (topic speech_type transcription_text : String)
    (duration : Frac) (language : String) ( is_repeat : Bool)
    (previous_transcription : Option String) : String :=
  let repeat_context := ""
  let language_instruction := language_instruction_for language
  if Frac.intLt 5 duration && Frac.ltInt duration 20 then
    shortFeedbackPrompt speech_type topic transcription_text repeat_context
      language_instruction duration
  else
    fullFeedbackPrompt topic speech_type transcription_text repeat_context
      language_instruction duration

/-- One server-sent event of the stream-feedback endpoint: the JSON frames
`{'content': c, 'type': 'chunk'}`, `{'type': 'complete', 'total_chunks': n}`
and `{'error': msg}` (web_api.py:704,708,717,558). -/
inductive SSEEvent where
  | chunk (content : String)
  | complete (total_chunks : Nat)
  | errorEvent (message : String)
deriving DecidableEq

/-- The chunk content of an event, if it is a chunk event. -/
def chunk_content : SSEEvent → Option String
  | .chunk c => some c
  | _ => none

/-- The behaviour of the upstream chat-completion stream for one prompt:
either the iteration runs to the end yielding these `delta.content` values
(`none` models a delta whose content is `None`), or it yields some deltas
and then raises with the given exception text. -/
inductive StreamOutcome where
  | ok (deltas : List (Option String))
  | failAfter (deltas : List (Option String)) (message : String)
deriving DecidableEq

/-- The write-back loop of the generator (web_api.py:711-714): set the
feedback of the first recording with the given filename, then `break`. -/
def set_feedback_first : List Recording → String → String → List Recording
  | [], _, _ => []
  | r :: rest, filename, fb =>
    if r.filename = filename then { r with feedback := fb } :: rest
    else r :: set_feedback_first rest filename fb

/-- `generate_feedback`, the generator of `GET
/api/stream-feedback/<session_id>/<filename>` (web_api.py:553-717).
`chat` is the external chat-completion call on the built prompt.  Returns
the events yielded in order, and the store after the generator finishes. -/
def generate_feedback (chat : String → StreamOutcome)
    (session_id filename language : String) (s : Store) : List SSEEvent × Store :=
  match get_session_recording_data session_id filename s with
  | none => ([SSEEvent.errorEvent "Recording not found"], s)
  | some recording =>
    let duration := estimated_duration recording.audio_data.len
    let feedback_prompt := build_feedback_prompt recording.topic recording.speech_type
      recording.transcription duration language false none
    match chat feedback_prompt with
    | .ok deltas =>
      let contents := deltas.filterMap id
      let full_feedback := String.join contents
      let events := contents.map SSEEvent.chunk ++ [SSEEvent.complete contents.length]
      match List.lookup session_id s.user_sessions with
      | none => (events, s)
      | some recs =>
        let updated := set_feedback_first recs filename full_feedback
        (events, { s with user_sessions := dictSet s.user_sessions session_id updated })
    | .failAfter deltas e =>
      ((deltas.filterMap id).map SSEEvent.chunk ++ [SSEEvent.errorEvent e], s)

/-- A Python exception value, with the text `str(e)` renders to.
`UnboundLocalError` is what web_api.py:309 raises: `except Exception as e`
further down the same function (web_api.py:333) makes `e` a local variable
of the whole `get_recording` body, so referencing it before assignment is
an unbound-local access, not a lookup of an undefined global name. -/
inductive PyExn where
  | unboundLocalError (message : String)
deriving DecidableEq

def pyExnStr : PyExn → String
  | .unboundLocalError m => m

/-- `type(error).__name__` (web_api.py:175). -/
def pyExnTypeName : PyExn → String
  | .unboundLocalError _ => "UnboundLocalError"

/-- `isinstance(e, NameError)`: in Python's exception hierarchy
`UnboundLocalError` is a subclass of `NameError`. -/
def pyExnIsInstanceOfNameError : PyExn → Bool
  | .unboundLocalError _ => true

/-- What `GET /api/recordings/<filename>` sends back: a JSON body with an
HTTP status, or the audio file response (web_api.py:306-320). -/
inductive GetRecordingResult where
  | jsonResp (status : Nat) (success : Bool) (error : String) (typeName : String)
  | audioFile (data : PyBytes) (mimetype : String) (content_disposition : String)
deriving DecidableEq

/-- The production-mode body of `get_recording` (web_api.py:304-320).  Its
not-found branch evaluates `str(e)` where `e` is never assigned on this
path (web_api.py:309); because `except Exception as e` in the same
function (web_api.py:333) makes `e` function-local, the reference raises
`UnboundLocalError`, modelled as the `Except.error`.  The exception's
message text depends on the interpreter version ("local variable 'e'
referenced before assignment" before Python 3.11, "cannot access local
variable 'e' where it is not associated with a value" from 3.11 on), so
it is the parameter `unbound_local_message`. -/
def get_recording_handler (unbound_local_message : String)
    (session_id filename : String) (s : Store) :
    Except PyExn GetRecordingResult :=
  match get_session_recording_data session_id filename s with
  | none => Except.error (PyExn.unboundLocalError unbound_local_message)
  | some recording =>
    Except.ok (GetRecordingResult.audioFile recording.audio_data "audio/wav"
      ("attachment; filename=" ++ filename))

/-- `handle_error`, Flask's `@app.errorhandler(Exception)` hook
(web_api.py:169-176): a generic 500 with `str(error)` and the type name. -/
def handle_error (e : PyExn) : GetRecordingResult :=
  GetRecordingResult.jsonResp 500 false (pyExnStr e) (pyExnTypeName e)

/-- The observable behaviour of `GET /api/recordings/<filename>` in
production mode: the handler's result, or `handle_error` applied to the
exception it raises. -/
def get_recording_route (unbound_local_message : String)
    (session_id filename : String) (s : Store) :
    GetRecordingResult :=
  match get_recording_handler unbound_local_message session_id filename s with
  | .ok r => r
  | .error e => handle_error e

/-- A response of `POST /api/session/cleanup`. -/
inductive CleanupResponse where
  | ok (message : String)
  | err (status : Nat) (error : String)
deriving DecidableEq

/-- `cleanup_user_session`, the handler of `POST /api/session/cleanup`
(web_api.py:197-210). -/
def cleanup_user_session (session_id : String) (s : Store) :
    CleanupResponse × Store :=
  if session_id = "" then (.err 400 "No session ID provided", s)
  else (.ok "Session cleaned up successfully", cleanup_session session_id s)

/-- The Session-Store contract of the specification for deletion, "removes
first match", written out for comparison with `delete_session_recording`. -/
def erase_first_match : String → List Recording → List Recording
  | _, [] => []
  | filename, r :: rest =>
    if r.filename = filename then rest else r :: erase_first_match filename rest

theorem lookup_dictSet {α : Type} (d : List (String × α)) (k k' : String) (v : α) :
    List.lookup k' (dictSet d k v) = if k' = k then some v else List.lookup k' d := by
  induction d with
  | nil =>
    by_cases h : k' = k
    · subst h; simp [dictSet, List.lookup]
    · have hb : (k' == k) = false := beq_eq_false_iff_ne.mpr h
      simp [dictSet, List.lookup, hb, h]
  | cons p t ih =>
    obtain ⟨a, b⟩ := p
    by_cases h1 : a = k
    · subst h1
      by_cases h2 : k' = a
      · subst h2; simp [dictSet, List.lookup]
      · have hb : (k' == a) = false := beq_eq_false_iff_ne.mpr h2
        simp [dictSet, List.lookup, hb, h2]
    · have ha : (a == k) = false := beq_eq_false_iff_ne.mpr h1
      by_cases h2 : k' = a
      · subst h2
        have hk : ¬ k' = k := fun hkk => h1 (hkk ▸ rfl)
        simp [dictSet, h1, List.lookup, hk]
      · have hb : (k' == a) = false := beq_eq_false_iff_ne.mpr h2
        simp [dictSet, h1, List.lookup, hb, ih]

theorem lookup_dictDel {α : Type} (d : List (String × α)) (k k' : String) :
    List.lookup k' (dictDel d k) = if k' = k then none else List.lookup k' d := by
  induction d with
  | nil => by_cases h : k' = k <;> simp [dictDel, List.lookup, h]
  | cons p t ih =>
    obtain ⟨a, b⟩ := p
    by_cases h1 : a = k
    · subst h1
      have hstep : dictDel ((a, b) :: t) a = dictDel t a := by
        simp [dictDel, List.filter_cons]
      rw [hstep, ih]
      by_cases h2 : k' = a
      · simp [h2]
      · have hb : (k' == a) = false := beq_eq_false_iff_ne.mpr h2
        simp [h2, List.lookup, hb]
    · have hstep : dictDel ((a, b) :: t) k = (a, b) :: dictDel t k := by
        have ha : (a != k) = true := by simp [bne, beq_eq_false_iff_ne.mpr h1]
        simp [dictDel, List.filter_cons, ha]
      rw [hstep]
      by_cases h2 : k' = a
      · subst h2
        have hk : ¬ k' = k := fun hkk => h1 (hkk ▸ rfl)
        simp [List.lookup, hk]
      · have hb : (k' == a) = false := beq_eq_false_iff_ne.mpr h2
        simp [List.lookup, hb, ih]

theorem dictDel_idem {α : Type} (d : List (String × α)) (k : String) :
    dictDel (dictDel d k) k = dictDel d k := by
  simp [dictDel, List.filter_filter]

theorem dictDel_of_lookup_none {α : Type} (d : List (String × α)) (k : String)
    (h : List.lookup k d = none) : dictDel d k = d := by
  induction d with
  | nil => rfl
  | cons p t ih =>
    obtain ⟨a, b⟩ := p
    by_cases h1 : k = a
    · subst h1; simp [List.lookup] at h
    · have hb : (k == a) = false := beq_eq_false_iff_ne.mpr h1
      have ht : List.lookup k t = none := by
        have := h
        simp only [List.lookup, hb] at this
        exact this
      have ha : (a != k) = true := by
        simp [bne, beq_eq_false_iff_ne.mpr (Ne.symm h1)]
      have hstep : dictDel ((a, b) :: t) k = (a, b) :: dictDel t k := by
        simp [dictDel, List.filter_cons, ha]
      rw [hstep, ih ht]

/-- C10: session destruction is idempotent — `cleanup_session` removes the
session's recording list and counter when present, is a no-op (raising no
error) on an unknown id, running it twice equals running it once, and
`POST /api/session/cleanup` reports success for any non-empty session id. -/
theorem c10_cleanup_idempotent :
    (∀ session_id s,
      cleanup_session session_id (cleanup_session session_id s) = cleanup_session session_id s) ∧
    (∀ session_id s, List.lookup session_id s.user_sessions = none →
      List.lookup session_id s.session_counters = none →
      cleanup_session session_id s = s) ∧
    (∀ session_id s, session_id ≠ "" →
      (cleanup_user_session session_id s).1 = CleanupResponse.ok "Session cleaned up successfully" ∧
      (cleanup_user_session session_id s).2 = cleanup_session session_id s) := by
  refine ⟨fun sid s => ?_, fun sid s h1 h2 => ?_, fun sid s h => ?_⟩
  · simp [cleanup_session, dictDel_idem]
  · obtain ⟨us, sc⟩ := s
    show Store.mk (dictDel us sid) (dictDel sc sid) = Store.mk us sc
    rw [dictDel_of_lookup_none us sid h1, dictDel_of_lookup_none sc sid h2]
  · simp [cleanup_user_session, h]

theorem c10_witness :
    (List.lookup "S" emptyStore.user_sessions = none) ∧
    (List.lookup "S" emptyStore.session_counters = none) ∧
    cleanup_session "S" (cleanup_session "S" emptyStore) = cleanup_session "S" emptyStore ∧
    cleanup_session "S" emptyStore = emptyStore ∧
    (cleanup_user_session "S" emptyStore).1 = CleanupResponse.ok "Session cleaned up successfully" := by
  refine ⟨by decide, by decide, c10_cleanup_idempotent.1 "S" emptyStore, ?_, ?_⟩
  · exact c10_cleanup_idempotent.2.1 "S" emptyStore (by decide) (by decide)
  · exact (c10_cleanup_idempotent.2.2 "S" emptyStore (by decide)).1

/-- C7: streaming feedback for a filename with no stored Recording in the
session (including unknown session ids) yields exactly one error event,
no chunk events, and leaves the store — hence every feedback field —
unchanged. -/
theorem c7_stream_unknown_recording :
    ∀ (chat : String → StreamOutcome) session_id filename language s,
      get_session_recording_data session_id filename s = none →
      generate_feedback chat session_id filename language s
        = ([SSEEvent.errorEvent "Recording not found"], s) := by
  intro chat sid fn lang s h
  simp [generate_feedback, h]

theorem c7_witness :
    get_session_recording_data "S" "missing.wav" emptyStore = none ∧
    generate_feedback (fun _ => StreamOutcome.ok [some "x"]) "S" "missing.wav" "en" emptyStore
      = ([SSEEvent.errorEvent "Recording not found"], emptyStore) :=
  ⟨by decide,
   c7_stream_unknown_recording (fun _ => StreamOutcome.ok [some "x"]) "S" "missing.wav" "en"
     emptyStore (by decide)⟩

/-- C9 (counterexample): the exception at the not-found branch is an
`UnboundLocalError`, not a `NameError` proper — `except Exception as e`
at web_api.py:333 makes `e` local to the whole function — so the generic
500 body carries the type name "UnboundLocalError" and the interpreter's
unbound-local message, never the body `name 'e' is not defined` /
`NameError` the claim describes (shown here with the Python ≥ 3.11
message). -/
theorem c9_counterexample :
    get_recording_route
        "cannot access local variable 'e' where it is not associated with a value"
        "S" "missing.wav" emptyStore
      = GetRecordingResult.jsonResp 500 false
          "cannot access local variable 'e' where it is not associated with a value"
          "UnboundLocalError" ∧
    get_recording_route
        "cannot access local variable 'e' where it is not associated with a value"
        "S" "missing.wav" emptyStore
      ≠ GetRecordingResult.jsonResp 500 false "name 'e' is not defined" "NameError" ∧
    pyExnTypeName (PyExn.unboundLocalError
        "cannot access local variable 'e' where it is not associated with a value")
      ≠ "NameError" :=
  ⟨by decide, by decide, by decide⟩

/-- C9 (amended): in production mode, `GET /api/recordings/<filename>` for
a filename absent from the session does not return the structured
not-found JSON: the branch's reference to the function-local, never
assigned `e` raises an `UnboundLocalError` — an instance of `NameError`
by subclassing — and the top-level handler converts it into a generic 500
whose error text is that exception's (version-dependent) message and
whose type field is "UnboundLocalError". -/
theorem c9_get_recording_unbound_local_e :
    ∀ unbound_local_message session_id filename s,
      get_session_recording_data session_id filename s = none →
      get_recording_handler unbound_local_message session_id filename s
          = Except.error (PyExn.unboundLocalError unbound_local_message) ∧
      pyExnIsInstanceOfNameError (PyExn.unboundLocalError unbound_local_message) = true ∧
      get_recording_route unbound_local_message session_id filename s
          = GetRecordingResult.jsonResp 500 false unbound_local_message
              "UnboundLocalError" := by
  intro msg sid fn s h
  refine ⟨?_, rfl, ?_⟩
  · simp [get_recording_handler, h]
  · simp [get_recording_route, get_recording_handler, handle_error, pyExnStr, pyExnTypeName, h]

theorem c9_witness :
    get_session_recording_data "S" "missing.wav" emptyStore = none ∧
    get_recording_route "local variable 'e' referenced before assignment"
        "S" "missing.wav" emptyStore
      = GetRecordingResult.jsonResp 500 false
          "local variable 'e' referenced before assignment" "UnboundLocalError" :=
  ⟨by decide,
   (c9_get_recording_unbound_local_e "local variable 'e' referenced before assignment"
     "S" "missing.wav" emptyStore (by decide)).2.2⟩

/-- C5 (amended): the prompt built for a stream request never contains a
compare-to-prior-attempt clause — `repeat_context` is always empty and the
builder's output does not depend on `is_repeat` or
`previous_transcription` at all (and the stream path additionally passes
`False` and `None` for them). -/
theorem c5_prompt_independent_of_repeat :
    ∀ topic speech_type transcription_text duration language r1 p1 r2 p2,
      build_feedback_prompt topic speech_type transcription_text duration language r1 p1 =
        build_feedback_prompt topic speech_type transcription_text duration language r2 p2 :=
  fun _ _ _ _ _ _ _ _ _ => rfl

/-- Substring occurrence as an executable scan (used to state that a
prompt does not contain a given text). -/
def listContainsSub (pat : List Char) : List Char → Bool
  | [] => pat.isEmpty
  | c :: rest => pat.isPrefixOf (c :: rest) || listContainsSub pat rest

theorem listContainsSub_iff (pat l : List Char) :
    listContainsSub pat l = true ↔ List.IsInfix pat l := by
  induction l with
  | nil => simp [listContainsSub, List.isEmpty_iff]
  | cons c t ih =>
    simp [listContainsSub, List.isPrefixOf_iff_prefix, ih, List.infix_cons_iff]

set_option maxRecDepth 100000 in
/-- C5 (counterexample): for a repeat submission with a prior transcript,
the prompt built by the stream path contains no clause referencing the
prior transcript — it is the very prompt built for a non-repeat
submission, and the prior transcript does not occur in it. -/
theorem c5_counterexample :
    build_feedback_prompt "Topic" "talk" "some words" (estimated_duration 2205000) "en"
        true (some "zXqV earlier attempt transcript")
      = build_feedback_prompt "Topic" "talk" "some words" (estimated_duration 2205000) "en"
        false none ∧
    ¬ List.IsInfix "zXqV".data
        (build_feedback_prompt "Topic" "talk" "some words" (estimated_duration 2205000) "en"
          true (some "zXqV earlier attempt transcript")).data := by
  refine ⟨rfl, ?_⟩
  rw [← listContainsSub_iff]
  decide

/-- C4 (counterexample): at an estimated duration of 25 seconds — strictly
between the 5-second minimum and the claimed 30-second cutoff — the
builder produces the full-form template, not the short-form one, while the
record endpoint's `score_type` for the same duration is `"short"`: the
builder's cutoff does not agree with `score_type`. -/
theorem c4_counterexample :
    build_feedback_prompt "Topic" "talk" "some words" (estimated_duration 2205000) "en" false none
      = fullFeedbackPrompt "Topic" "talk" "some words" ""
          (language_instruction_for "en") (estimated_duration 2205000) ∧
    fullFeedbackPrompt "Topic" "talk" "some words" ""
        (language_instruction_for "en") (estimated_duration 2205000)
      ≠ shortFeedbackPrompt "talk" "Topic" "some words" ""
          (language_instruction_for "en") (estimated_duration 2205000) ∧
    score_type_for (estimated_duration 2205000) = "short" :=
  ⟨rfl, by decide, rfl⟩

/-- C4 (amended): the prompt builder's single cutoff is 20 seconds, not
about 30 — short-form exactly for estimated durations strictly between 5
and 20 seconds (byte counts strictly between 5·88200 and 20·88200),
full-form at or above 20 seconds — while the record endpoint's
`score_type` classifies `"short"` exactly below 30 seconds, so the two
classifications disagree on durations in [20, 30). -/
theorem c4_builder_cutoff_is_20 :
    (∀ (topic speech_type transcription_text language : String) (r : Bool)
        (p : Option String) (len : Nat), 5 * 88200 < len → len < 20 * 88200 →
      build_feedback_prompt topic speech_type transcription_text (estimated_duration len)
          language r p
        = shortFeedbackPrompt speech_type topic transcription_text ""
            (language_instruction_for language) (estimated_duration len)) ∧
    (∀ (topic speech_type transcription_text language : String) (r : Bool)
        (p : Option String) (len : Nat), 20 * 88200 ≤ len →
      build_feedback_prompt topic speech_type transcription_text (estimated_duration len)
          language r p
        = fullFeedbackPrompt topic speech_type transcription_text ""
            (language_instruction_for language) (estimated_duration len)) ∧
    (∀ len : Nat, score_type_for (estimated_duration len) = "short" ↔ len < 30 * 88200) := by
  refine ⟨fun topic st tt lang r p len h1 h2 => ?_, fun topic st tt lang r p len h1 => ?_,
    fun len => ?_⟩
  · have hcond : (Frac.intLt 5 (estimated_duration len)
        && Frac.ltInt (estimated_duration len) 20) = true := by
      simp only [Frac.intLt, Frac.ltInt, estimated_duration, Bool.and_eq_true, decide_eq_true_eq]
      omega
    simp [build_feedback_prompt, hcond]
  · have hcond : (Frac.intLt 5 (estimated_duration len)
        && Frac.ltInt (estimated_duration len) 20) = false := by
      simp only [Frac.intLt, Frac.ltInt, estimated_duration, Bool.and_eq_false_iff,
        decide_eq_false_iff_not]
      omega
    simp [build_feedback_prompt, hcond]
  · by_cases h : len < 30 * 88200
    · have hlt : Frac.ltInt (estimated_duration len) 30 = true := by
        simp only [Frac.ltInt, estimated_duration, decide_eq_true_eq]
        omega
      simp [score_type_for, hlt, h]
    · have hlt : Frac.ltInt (estimated_duration len) 30 = false := by
        simp only [Frac.ltInt, estimated_duration, decide_eq_false_iff_not]
        omega
      simp [score_type_for, hlt, h]

theorem c4_witness :
    5 * 88200 < 882000 ∧ 882000 < 20 * 88200 ∧ 20 * 88200 ≤ 2205000 ∧
    build_feedback_prompt "Topic" "talk" "words" (estimated_duration 882000) "en" false none
      = shortFeedbackPrompt "talk" "Topic" "words" ""
          (language_instruction_for "en") (estimated_duration 882000) ∧
    build_feedback_prompt "Topic" "talk" "words" (estimated_duration 2205000) "en" false none
      = fullFeedbackPrompt "Topic" "talk" "words" ""
          (language_instruction_for "en") (estimated_duration 2205000) ∧
    (score_type_for (estimated_duration 2205000) = "short" ↔ 2205000 < 30 * 88200) := by
  refine ⟨by decide, by decide, by decide, ?_, ?_, ?_⟩
  · exact c4_builder_cutoff_is_20.1 "Topic" "talk" "words" "en" false none 882000
      (by decide) (by decide)
  · exact c4_builder_cutoff_is_20.2.1 "Topic" "talk" "words" "en" false none 2205000 (by decide)
  · exact c4_builder_cutoff_is_20.2.2 2205000

/-- A base64 decoder stub for concrete runs: six seconds of audio
(529200 bytes at 88200 bytes per second). -/
def stubDecode6s : String → Except String PyBytes := fun _ => Except.ok ⟨529200⟩

/-- A base64 decoder stub: one second of audio (88200 bytes). -/
def stubDecode1s : String → Except String PyBytes := fun _ => Except.ok ⟨88200⟩

/-- A transcription stub for concrete runs. -/
def stubTranscribe : PyBytes → String → Except String String :=
  fun _ _ => Except.ok "hello there friend"

/-- A concrete request body for concrete runs. -/
def sampleRequest : RecordRequest := ⟨"My Pitch", "talk", "en", some "QUJD", false, none⟩

/-- C2: every failing submit-recording request — missing field, undecodable
base64, too-short transcript, estimated duration at most 5 seconds, or a
raised transcription exception — returns an error response and leaves the
session store unchanged: no Recording is added and no counter moves. -/
theorem c2_failed_submission_store_unchanged :
    ∀ (b64decode : String → Except String PyBytes)
      (transcribe : PyBytes → String → Except String String)
      session_id data ts now s status msg,
      (process_recording b64decode transcribe session_id data ts now s).1
          = RecordResponse.err status msg →
      (process_recording b64decode transcribe session_id data ts now s).2 = s := by
  intro dec tr sid data ts now s status msg h
  suffices haux : (process_recording dec tr sid data ts now s).2 = s ∨
      ∃ r, (process_recording dec tr sid data ts now s).1 = RecordResponse.ok r by
    rcases haux with h2 | ⟨r, hr⟩
    · exact h2
    · rw [hr] at h
      exact absurd h (by simp)
  simp only [process_recording]
  repeat' split
  all_goals try (left; rfl)
  all_goals try (right; exact ⟨_, rfl⟩)
  all_goals exfalso
  all_goals simp_all [generate_session_filename]

theorem c2_witness :
    (process_recording stubDecode1s stubTranscribe "S" (some sampleRequest)
        "20240101_120000" 0 emptyStore).1
      = RecordResponse.err 400
          "Speech was too short to generate feedback for (<5 seconds). Please try again." ∧
    (process_recording stubDecode1s stubTranscribe "S" (some sampleRequest)
        "20240101_120000" 0 emptyStore).2 = emptyStore :=
  ⟨by decide,
   c2_failed_submission_store_unchanged stubDecode1s stubTranscribe "S" (some sampleRequest)
     "20240101_120000" 0 emptyStore 400
     "Speech was too short to generate feedback for (<5 seconds). Please try again."
     (by decide)⟩

/-- The store after a first submission to a session id the server has never
seen (no `POST /api/session/new` preceded it). -/
def c3Store1 : Store :=
  (process_recording stubDecode6s stubTranscribe "S" (some sampleRequest)
    "20240101_120000" 0 emptyStore).2

/-- The store after a second identical submission in the same wall-clock
second. -/
def c3Store2 : Store :=
  (process_recording stubDecode6s stubTranscribe "S" (some sampleRequest)
    "20240101_120000" 0 c3Store1).2

/-- C3 (failing run): two successful submissions with the same topic in the
same timestamp second, under a session id that was not in the store
beforehand, produce two stored Recordings with the SAME filename.
`process_recording` increments the counter in `generate_session_filename`
and only afterwards calls `save_session_recording`, whose
`ensure_session_exists` resets the just-incremented counter to 0 because
the session id is not yet a key of `user_sessions`; the second submission
therefore draws counter value 1 again. -/
theorem c3_duplicate_filenames :
    (∃ r, (process_recording stubDecode6s stubTranscribe "S" (some sampleRequest)
        "20240101_120000" 0 emptyStore).1 = RecordResponse.ok r) ∧
    (∃ r, (process_recording stubDecode6s stubTranscribe "S" (some sampleRequest)
        "20240101_120000" 0 c3Store1).1 = RecordResponse.ok r) ∧
    (sessionRecs c3Store2 "S").map Recording.filename
      = ["My_Pitch_20240101_120000_1.wav", "My_Pitch_20240101_120000_1.wav"] :=
  ⟨⟨_, rfl⟩, ⟨_, rfl⟩, by decide⟩

theorem dictSet_dictSet {α : Type} (d : List (String × α)) (k : String) (a b : α) :
    dictSet (dictSet d k a) k b = dictSet d k b := by
  induction d with
  | nil => simp [dictSet]
  | cons p t ih =>
    obtain ⟨x, y⟩ := p
    by_cases h : x = k
    · subst h; simp [dictSet]
    · simp [dictSet, h, ih]

/-- The net effect of `process_recording` on the counters dict: unchanged
on every error path; on the success path the submitting session's counter
is incremented — unless the session id was not yet a key of
`user_sessions`, in which case `ensure_session_exists` (running after the
increment, inside `save_session_recording`) resets it to 0. -/
theorem process_recording_counters_shape
    (b64decode : String → Except String PyBytes)
    (transcribe : PyBytes → String → Except String String)
    (session_id : String) (data : Option RecordRequest) (ts : String) (now : Nat)
    (s : Store) :
    (process_recording b64decode transcribe session_id data ts now s).2.session_counters
        = s.session_counters ∨
    (process_recording b64decode transcribe session_id data ts now s).2.session_counters
        = dictSet s.session_counters session_id (counterOf s session_id + 1) ∨
    (List.lookup session_id s.user_sessions = none ∧
      (process_recording b64decode transcribe session_id data ts now s).2.session_counters
        = dictSet s.session_counters session_id 0) := by
  by_cases hsid : session_id = ""
  · left; simp [process_recording, hsid]
  · simp only [process_recording]
    repeat' split
    all_goals try (left; rfl)
    all_goals rename_i heq
    all_goals rw [Prod.mk.injEq] at heq
    all_goals simp only [generate_session_filename, hsid, if_neg, ite_false,
      reduceCtorEq, false_and] at heq
    all_goals first
      | exact heq.elim
      | (obtain ⟨hfn, hs'⟩ := heq
         subst hs'
         dsimp only
         by_cases hmem : List.lookup session_id s.user_sessions = none
         · refine Or.inr (Or.inr ⟨hmem, ?_⟩)
           simp [save_session_recording, hsid, ensure_session_exists, hmem, dictSet_dictSet]
         · refine Or.inr (Or.inl ?_)
           simp [save_session_recording, hsid, ensure_session_exists, hmem, counterOf])

/-- A store holding session "S" (as `POST /api/session/new` leaves it). -/
def c6Store0 : Store := ensure_session_exists "S" emptyStore

/-- `c6Store0` after one successful submission: the counter is 1. -/
def c6Store1 : Store :=
  (process_recording stubDecode6s stubTranscribe "S" (some sampleRequest)
    "20240101_120000" 0 c6Store0).2

/-- C6 (counterexample): after a submission the session's counter is 1;
clearing the session — under which the session keeps existing — resets
the counter to 0, a decrease from one store operation to the next. -/
theorem c6_counterexample :
    counterOf c6Store1 "S" = 1 ∧
    (List.lookup "S" (clear_all_session_recordings "S" c6Store1).2.user_sessions).isSome
      = true ∧
    counterOf (clear_all_session_recordings "S" c6Store1).2 "S" = 0 :=
  ⟨by decide, by decide, by decide⟩

/-- C6 (amended): while a session exists in the store its counter never
decreases across filename generation, submit recording and delete
recording; clear session is the one exception, resetting the counter to
zero. -/
theorem c6_counter_monotone_except_clear :
    (∀ session_id topic ts s sid2,
      counterOf s sid2 ≤ counterOf (generate_session_filename session_id topic ts s).2 sid2) ∧
    (∀ session_id filename s sid2,
      counterOf (delete_session_recording session_id filename s).2 sid2 = counterOf s sid2) ∧
    (∀ (b64decode : String → Except String PyBytes)
        (transcribe : PyBytes → String → Except String String) session_id data ts now s sid2,
      (List.lookup sid2 s.user_sessions).isSome = true →
      counterOf s sid2
        ≤ counterOf (process_recording b64decode transcribe session_id data ts now s).2 sid2) ∧
    (∀ session_id s, session_id ≠ "" →
      (List.lookup session_id s.user_sessions).isSome = true →
      counterOf (clear_all_session_recordings session_id s).2 session_id = 0) := by
  refine ⟨fun sid topic ts s sid2 => ?_, fun sid fn s sid2 => ?_,
    fun dec tr sid data ts now s sid2 hs => ?_, fun sid s hsid hs => ?_⟩
  · by_cases hsid : sid = ""
    · simp [generate_session_filename, hsid]
    · by_cases h2 : sid2 = sid
      · subst h2
        simp [generate_session_filename, hsid, counterOf, lookup_dictSet]
      · simp [generate_session_filename, hsid, counterOf, lookup_dictSet, h2]
  · unfold delete_session_recording
    repeat' split
    all_goals simp [counterOf]
  · rcases process_recording_counters_shape dec tr sid data ts now s with h | h | ⟨hnone, h⟩
    · simp [counterOf, h]
    · by_cases h2 : sid2 = sid
      · subst h2
        unfold counterOf
        rw [h, lookup_dictSet]
        simp [counterOf]
      · unfold counterOf
        rw [h, lookup_dictSet]
        simp [h2]
    · by_cases h2 : sid2 = sid
      · subst h2
        rw [hnone] at hs
        simp at hs
      · unfold counterOf
        rw [h, lookup_dictSet]
        simp [h2]
  · obtain ⟨v, hv⟩ := Option.isSome_iff_exists.mp hs
    simp [clear_all_session_recordings, hsid, hv, counterOf, lookup_dictSet]

theorem c6_witness :
    (List.lookup "S" c6Store0.user_sessions).isSome = true ∧
    counterOf c6Store0 "S" ≤ counterOf c6Store1 "S" ∧
    counterOf (delete_session_recording "S" "x.wav" c6Store1).2 "S" = counterOf c6Store1 "S" ∧
    counterOf c6Store1 "S" ≤ counterOf (generate_session_filename "S" "t" "ts" c6Store1).2 "S" ∧
    counterOf (clear_all_session_recordings "S" c6Store1).2 "S" = 0 := by
  refine ⟨by decide, ?_, c6_counter_monotone_except_clear.2.1 "S" "x.wav" c6Store1 "S", ?_, ?_⟩
  · exact c6_counter_monotone_except_clear.2.2.1 stubDecode6s stubTranscribe "S"
      (some sampleRequest) "20240101_120000" 0 c6Store0 "S" (by decide)
  · exact c6_counter_monotone_except_clear.1 "S" "t" "ts" c6Store1 "S"
  · exact c6_counter_monotone_except_clear.2.2.2 "S" c6Store1 (by decide) (by decide)

theorem dictSet_lookup_self {α : Type} (d : List (String × α)) (k : String) (v : α)
    (h : List.lookup k d = some v) : dictSet d k v = d := by
  induction d with
  | nil => simp [List.lookup] at h
  | cons p t ih =>
    obtain ⟨a, b⟩ := p
    by_cases h1 : k = a
    · subst h1
      simp [List.lookup] at h
      simp [dictSet, h]
    · have hb : (k == a) = false := beq_eq_false_iff_ne.mpr h1
      simp only [List.lookup, hb] at h
      have ha : ¬ a = k := fun hh => h1 hh.symm
      simp [dictSet, ha, ih h]

theorem filter_ne_length_lt_iff (l : List Recording) (fn : String) :
    ((l.filter (fun r => r.filename != fn)).length < l.length
      ↔ ∃ r ∈ l, r.filename = fn) := by
  induction l with
  | nil => simp
  | cons a t ih =>
    by_cases h : a.filename = fn
    · have hb : (a.filename != fn) = false := by simp [bne, h]
      have hle := List.length_filter_le (fun r => r.filename != fn) t
      simp [List.filter_cons, hb, h]
      omega
    · have hb : (a.filename != fn) = true := by simp [bne, h]
      simp [List.filter_cons, hb, h, ← ih]

/-- C8 (amended): delete removes EVERY stored Recording whose name matches
(the first match when names are unique), returns true exactly when some
removal occurred, never touches the counter, mutates nothing when it
returns false, and the listed recordings after a delete never include the
deleted name. -/
theorem c8_delete_semantics :
    (∀ session_id filename s,
      ((delete_session_recording session_id filename s).1 = true ↔
        (session_id ≠ "" ∧ ∃ r ∈ sessionRecs s session_id, r.filename = filename))) ∧
    (∀ session_id filename s,
      (delete_session_recording session_id filename s).2.session_counters
        = s.session_counters) ∧
    (∀ session_id filename s,
      (delete_session_recording session_id filename s).1 = false →
      (delete_session_recording session_id filename s).2 = s) ∧
    (∀ session_id filename s, session_id ≠ "" →
      ∀ info ∈ get_session_recordings session_id
        (delete_session_recording session_id filename s).2,
        info.filename ≠ filename) ∧
    (∀ session_id filename s recs, session_id ≠ "" →
      List.lookup session_id s.user_sessions = some recs →
      sessionRecs (delete_session_recording session_id filename s).2 session_id
        = recs.filter (fun r => r.filename != filename)) := by
  refine ⟨fun sid fn s => ?_, fun sid fn s => ?_, fun sid fn s h => ?_,
    fun sid fn s hsid info hinfo => ?_, fun sid fn s recs hsid hl => ?_⟩
  · by_cases hsid : sid = ""
    · simp [delete_session_recording, hsid]
    · rcases hl : List.lookup sid s.user_sessions with _ | recs
      · simp [delete_session_recording, hsid, hl, sessionRecs]
      · simp [delete_session_recording, hsid, hl, sessionRecs, filter_ne_length_lt_iff]
  · unfold delete_session_recording
    repeat' split
    all_goals rfl
  · by_cases hsid : sid = ""
    · simp [delete_session_recording, hsid]
    · rcases hl : List.lookup sid s.user_sessions with _ | recs
      · simp [delete_session_recording, hsid, hl]
      · simp only [delete_session_recording, hsid, hl, if_neg, ite_false,
          decide_eq_false_iff_not, not_lt] at h ⊢
        have hnotex : ¬ ∃ r ∈ recs, r.filename = fn := by
          rw [← filter_ne_length_lt_iff recs fn]
          omega
        have hall : ∀ r ∈ recs, (r.filename != fn) = true := by
          intro r hr
          simp only [bne_iff_ne, ne_eq]
          exact fun hrf => hnotex ⟨r, hr, hrf⟩
        have hfix : recs.filter (fun r => r.filename != fn) = recs :=
          List.filter_eq_self.mpr hall
        simp [hfix, dictSet_lookup_self _ _ _ hl]
  · rcases hl : List.lookup sid s.user_sessions with _ | recs
    · simp [delete_session_recording, hsid, hl, get_session_recordings] at hinfo
    · simp only [delete_session_recording, hsid, hl, if_neg, ite_false] at hinfo
      simp only [get_session_recordings, hsid, ite_false, lookup_dictSet, if_pos] at hinfo
      rw [List.mem_map] at hinfo
      obtain ⟨r, hr, hproj⟩ := hinfo
      have := (List.mem_filter.mp hr).2
      rw [← hproj]
      simpa [bne_iff_ne] using this
  · simp [delete_session_recording, hsid, hl, sessionRecs, lookup_dictSet]

/-- Two distinct Recordings sharing one filename (such a session state is
reachable: see `c3_duplicate_filenames`). -/
def dupRecA : Recording := ⟨"f.wav", ⟨100⟩, "t", "ty", "tr", "", 100, 0, 0⟩

def dupRecB : Recording := ⟨"f.wav", ⟨200⟩, "t2", "ty2", "tr2", "", 200, 1, 1⟩

def dupStore : Store := ⟨[("S", [dupRecA, dupRecB])], [("S", 2)]⟩

/-- C8 (counterexample): on a session holding two recordings named
"f.wav", delete removes BOTH — the resulting list is empty, not the list
with only the first match removed, so "removes first match" fails. -/
theorem c8_counterexample :
    (delete_session_recording "S" "f.wav" dupStore).1 = true ∧
    sessionRecs (delete_session_recording "S" "f.wav" dupStore).2 "S" = [] ∧
    erase_first_match "f.wav" (sessionRecs dupStore "S") = [dupRecB] ∧
    sessionRecs (delete_session_recording "S" "f.wav" dupStore).2 "S"
      ≠ erase_first_match "f.wav" (sessionRecs dupStore "S") :=
  ⟨by decide, by decide, by decide, by decide⟩

/-- A one-recording session store for concrete witnesses. -/
def sampleRecording : Recording :=
  ⟨"f.wav", ⟨529200⟩, "t", "ty", "hello there", "", 529200, 0, 0⟩

def sampleStore : Store := ⟨[("A", [sampleRecording])], [("A", 1)]⟩

theorem c8_witness :
    ((delete_session_recording "A" "f.wav" sampleStore).1 = true ↔
      ("A" ≠ "" ∧ ∃ r ∈ sessionRecs sampleStore "A", r.filename = "f.wav")) ∧
    (delete_session_recording "A" "g.wav" sampleStore).1 = false ∧
    (delete_session_recording "A" "g.wav" sampleStore).2 = sampleStore ∧
    (⟨"f.wav", 529200, 0, 0⟩ : RecordingInfo).filename ≠ "g.wav" ∧
    sessionRecs (delete_session_recording "A" "f.wav" sampleStore).2 "A"
      = [sampleRecording].filter (fun r => r.filename != "f.wav") := by
  refine ⟨c8_delete_semantics.1 "A" "f.wav" sampleStore, by decide, ?_, ?_, ?_⟩
  · exact c8_delete_semantics.2.2.1 "A" "g.wav" sampleStore (by decide)
  · exact c8_delete_semantics.2.2.2.1 "A" "g.wav" sampleStore (by decide)
      ⟨"f.wav", 529200, 0, 0⟩ (by decide)
  · exact c8_delete_semantics.2.2.2.2 "A" "f.wav" sampleStore [sampleRecording]
      (by decide) (by decide)

theorem mem_sessionRecs_ensure (session_id : String) (s : Store) (sid2 : String)
    (r : Recording) (h : r ∈ sessionRecs (ensure_session_exists session_id s) sid2) :
    r ∈ sessionRecs s sid2 := by
  unfold ensure_session_exists at h
  split at h
  · by_cases h2 : sid2 = session_id
    · subst h2
      simp [sessionRecs, lookup_dictSet] at h
    · simpa [sessionRecs, lookup_dictSet, h2] using h
  · exact h

theorem user_sessions_generate (session_id topic ts : String) (s : Store) :
    (generate_session_filename session_id topic ts s).2.user_sessions = s.user_sessions := by
  unfold generate_session_filename
  split <;> rfl

theorem mem_sessionRecs_save (session_id filename : String) (audio_data : PyBytes)
    (topic speech_type transcription feedback : String) (now : Nat) (s : Store)
    (sid2 : String) (r : Recording)
    (h : r ∈ sessionRecs (save_session_recording session_id filename audio_data topic
      speech_type transcription feedback now s).2 sid2) :
    r ∈ sessionRecs s sid2 ∨ r.feedback = feedback := by
  unfold save_session_recording at h
  split at h
  · exact Or.inl h
  · dsimp only at h
    by_cases h2 : sid2 = session_id
    · subst h2
      simp only [sessionRecs, lookup_dictSet, if_pos, Option.getD_some] at h
      rcases List.mem_append.mp h with hmem | hnew
      · have hin : r ∈ sessionRecs (ensure_session_exists sid2 s) sid2 := by
          simpa [sessionRecs] using hmem
        exact Or.inl (mem_sessionRecs_ensure _ _ _ _ hin)
      · right
        simp only [List.mem_singleton] at hnew
        rw [hnew]
    · left
      refine mem_sessionRecs_ensure session_id s sid2 r ?_
      simpa [sessionRecs, lookup_dictSet, h2] using h

theorem mem_set_feedback_first (l : List Recording) (fn fb : String) (r : Recording)
    (h : r ∈ set_feedback_first l fn fb) :
    r ∈ l ∨ (r.filename = fn ∧ r.feedback = fb) := by
  induction l with
  | nil => simp [set_feedback_first] at h
  | cons a t ih =>
    simp only [set_feedback_first] at h
    split at h
    · rename_i hfn
      rcases List.mem_cons.mp h with hr | hr
      · right
        subst hr
        exact ⟨hfn, rfl⟩
      · exact Or.inl (List.mem_cons_of_mem _ hr)
    · rcases List.mem_cons.mp h with hr | hr
      · left; simp [hr]
      · rcases ih hr with h1 | h2
        · exact Or.inl (List.mem_cons_of_mem _ h1)
        · exact Or.inr h2

/-- C1: the feedback-field write discipline.  (i) A recording present
after a submit either was already stored or has empty feedback — new
Recordings are persisted with `feedback=""`.  (ii)-(vi) The other store
operations (`ensure_session_exists`, filename generation, delete, clear,
session cleanup) never produce a recording that was not already stored,
so none of them writes a feedback field.  (vii) A stream run that emits no
complete event (the error paths) leaves the store unchanged.  (viii) After
any stream run, a stored recording either was already stored or is the
streamed one: its feedback equals the concatenation, in delivery order, of
the contents of exactly the chunk events the generator yielded, and a
complete event was yielded. -/
theorem c1_feedback_write_discipline :
    (∀ (b64decode : String → Except String PyBytes)
        (transcribe : PyBytes → String → Except String String)
        session_id data ts now s sid2 r,
      r ∈ sessionRecs (process_recording b64decode transcribe session_id data ts now s).2 sid2 →
      r ∈ sessionRecs s sid2 ∨ r.feedback = "") ∧
    (∀ session_id s sid2 r, r ∈ sessionRecs (ensure_session_exists session_id s) sid2 →
      r ∈ sessionRecs s sid2) ∧
    (∀ session_id topic ts s sid2 r,
      r ∈ sessionRecs (generate_session_filename session_id topic ts s).2 sid2 →
      r ∈ sessionRecs s sid2) ∧
    (∀ session_id filename s sid2 r,
      r ∈ sessionRecs (delete_session_recording session_id filename s).2 sid2 →
      r ∈ sessionRecs s sid2) ∧
    (∀ session_id s sid2 r,
      r ∈ sessionRecs (clear_all_session_recordings session_id s).2 sid2 →
      r ∈ sessionRecs s sid2) ∧
    (∀ session_id s sid2 r, r ∈ sessionRecs (cleanup_session session_id s) sid2 →
      r ∈ sessionRecs s sid2) ∧
    (∀ (chat : String → StreamOutcome) session_id filename language s,
      (∀ n, SSEEvent.complete n ∉ (generate_feedback chat session_id filename language s).1) →
      (generate_feedback chat session_id filename language s).2 = s) ∧
    (∀ (chat : String → StreamOutcome) session_id filename language s sid2 r,
      r ∈ sessionRecs (generate_feedback chat session_id filename language s).2 sid2 →
      r ∈ sessionRecs s sid2 ∨
        (sid2 = session_id ∧ r.filename = filename ∧
         r.feedback = String.join
           ((generate_feedback chat session_id filename language s).1.filterMap chunk_content) ∧
         ∃ n, SSEEvent.complete n
           ∈ (generate_feedback chat session_id filename language s).1)) := by
  refine ⟨fun dec tr sid data ts now s sid2 r h => ?_,
    fun sid s sid2 r h => mem_sessionRecs_ensure sid s sid2 r h,
    fun sid topic ts s sid2 r h => ?_,
    fun sid fn s sid2 r h => ?_,
    fun sid s sid2 r h => ?_,
    fun sid s sid2 r h => ?_,
    fun chat sid fn lang s hno => ?_,
    fun chat sid fn lang s sid2 r h => ?_⟩
  · -- submit recording
    by_cases hsid : sid = ""
    · exact Or.inl (by simpa [process_recording, hsid] using h)
    · simp only [process_recording] at h
      repeat' split at h
      all_goals first
        | exact Or.inl (by simpa using h)
        | (rename_i heq
           rw [Prod.mk.injEq] at heq
           simp only [generate_session_filename, hsid, if_neg, ite_false,
             reduceCtorEq, false_and] at heq
           done)
        | (rename_i heq
           rw [Prod.mk.injEq] at heq
           simp only [generate_session_filename, hsid, if_neg, ite_false,
             reduceCtorEq, false_and] at heq
           obtain ⟨hfn, hs'⟩ := heq
           subst hs'
           try dsimp only at h
           rcases mem_sessionRecs_save _ _ _ _ _ _ _ _ _ _ _ h with hmem | hfb
           · exact Or.inl hmem
           · exact Or.inr hfb)
  · -- generate_session_filename
    unfold sessionRecs at h ⊢
    rw [user_sessions_generate] at h
    exact h
  · -- delete_session_recording
    unfold delete_session_recording at h
    split at h
    · exact h
    · split at h
      · exact h
      · rename_i recs hl
        dsimp only at h
        by_cases h2 : sid2 = sid
        · subst h2
          simp only [sessionRecs, lookup_dictSet, if_pos, Option.getD_some] at h
          have := (List.mem_filter.mp h).1
          simpa [sessionRecs, hl] using this
        · simpa [sessionRecs, lookup_dictSet, h2] using h
  · -- clear_all_session_recordings
    unfold clear_all_session_recordings at h
    split at h
    · exact h
    · split at h
      · exact h
      · dsimp only at h
        by_cases h2 : sid2 = sid
        · subst h2
          simp [sessionRecs, lookup_dictSet] at h
        · simpa [sessionRecs, lookup_dictSet, h2] using h
  · -- cleanup_session
    unfold cleanup_session at h
    by_cases h2 : sid2 = sid
    · subst h2
      simp [sessionRecs, lookup_dictDel] at h
    · simpa [sessionRecs, lookup_dictDel, h2] using h
  · -- stream run without a complete event leaves the store unchanged
    rcases hq : get_session_recording_data sid fn s with _ | recording
    · simp [generate_feedback, hq]
    · rcases hc : chat (build_feedback_prompt recording.topic recording.speech_type
          recording.transcription (estimated_duration recording.audio_data.len) lang false none)
        with deltas | ⟨deltas, e⟩
      · exfalso
        rcases hl : List.lookup sid s.user_sessions with _ | recs
        · exact hno ((deltas.filterMap id).length) (by simp [generate_feedback, hq, hc, hl])
        · exact hno ((deltas.filterMap id).length) (by simp [generate_feedback, hq, hc, hl])
      · simp [generate_feedback, hq, hc]
  · -- after any stream run
    rcases hq : get_session_recording_data sid fn s with _ | recording
    · exact Or.inl (by simpa [generate_feedback, hq] using h)
    · rcases hc : chat (build_feedback_prompt recording.topic recording.speech_type
          recording.transcription (estimated_duration recording.audio_data.len) lang false none)
        with deltas | ⟨deltas, e⟩
      · rcases hl : List.lookup sid s.user_sessions with _ | recs
        · exact Or.inl (by simpa [generate_feedback, hq, hc, hl] using h)
        · by_cases h2 : sid2 = sid
          · subst h2
            simp only [generate_feedback, hq, hc, hl] at h
            try dsimp only at h
            simp only [sessionRecs, lookup_dictSet, if_pos, Option.getD_some] at h
            rcases mem_set_feedback_first _ _ _ _ h with hmem | ⟨hfn2, hfb⟩
            · refine Or.inl ?_
              simpa [sessionRecs, hl] using hmem
            · refine Or.inr ⟨rfl, hfn2, ?_,
                ⟨(deltas.filterMap id).length, by simp [generate_feedback, hq, hc, hl]⟩⟩
              rw [hfb]
              congr 1
              have hcc : (chunk_content ∘ SSEEvent.chunk) = some := funext fun c => rfl
              simp [generate_feedback, hq, hc, hl, chunk_content, List.filterMap_append,
                List.filterMap_map, hcc]
          · refine Or.inl ?_
            simp only [generate_feedback, hq, hc, hl] at h
            try dsimp only at h
            simpa [sessionRecs, lookup_dictSet, h2] using h
      · exact Or.inl (by simpa [generate_feedback, hq, hc] using h)

/-- A chat stream stub that completes with three deltas, one of them a
`None` content. -/
def okChat : String → StreamOutcome :=
  fun _ => StreamOutcome.ok [some "Hello ", none, some "world"]

/-- A chat stream stub that yields one delta and then raises. -/
def errChat : String → StreamOutcome :=
  fun _ => StreamOutcome.failAfter [some "Hi"] "upstream failure"

/-- `sampleRecording` after a completed stream of `okChat`. -/
def sampleRecordingFed : Recording :=
  ⟨"f.wav", ⟨529200⟩, "t", "ty", "hello there", "Hello world", 529200, 0, 0⟩

theorem c1_witness :
    (sampleRecording ∈ sessionRecs sampleStore "A" ∨ sampleRecording.feedback = "") ∧
    sampleRecording ∈ sessionRecs sampleStore "A" ∧
    (generate_feedback errChat "A" "f.wav" "en" sampleStore).2 = sampleStore ∧
    (sampleRecordingFed ∈ sessionRecs sampleStore "A" ∨
      ("A" = "A" ∧ sampleRecordingFed.filename = "f.wav" ∧
       sampleRecordingFed.feedback = String.join
         ((generate_feedback okChat "A" "f.wav" "en" sampleStore).1.filterMap chunk_content) ∧
       ∃ n, SSEEvent.complete n ∈ (generate_feedback okChat "A" "f.wav" "en" sampleStore).1)) := by
  refine ⟨?_, ?_, ?_, ?_⟩
  · exact c1_feedback_write_discipline.1 stubDecode6s stubTranscribe "A" none "ts" 0
      sampleStore "A" sampleRecording (by decide)
  · have h1 := c1_feedback_write_discipline.2.1 "B" sampleStore "A" sampleRecording (by decide)
    have h2 := c1_feedback_write_discipline.2.2.1 "A" "t" "ts" sampleStore "A"
      sampleRecording (by decide)
    have h3 := c1_feedback_write_discipline.2.2.2.1 "A" "g.wav" sampleStore "A"
      sampleRecording (by decide)
    have h4 := c1_feedback_write_discipline.2.2.2.2.1 "B" sampleStore "A"
      sampleRecording (by decide)
    have h5 := c1_feedback_write_discipline.2.2.2.2.2.1 "B" sampleStore "A"
      sampleRecording (by decide)
    exact h1
  · refine c1_feedback_write_discipline.2.2.2.2.2.2.1 errChat "A" "f.wav" "en" sampleStore ?_
    intro n hn
    have he : (generate_feedback errChat "A" "f.wav" "en" sampleStore).1
        = [SSEEvent.chunk "Hi", SSEEvent.errorEvent "upstream failure"] := by decide
    rw [he] at hn
    simp at hn
  · exact c1_feedback_write_discipline.2.2.2.2.2.2.2 okChat "A" "f.wav" "en" sampleStore "A"
      sampleRecordingFed (by decide)
